import Mathlib

/-
Verification of the Yamaha RCP client core (src/lib.rs) against its
natural-language specification.

The embedding works over `List Char` for wire text (Lean core `String`
primitives do not kernel-reduce, and all protocol text here is ASCII, for
which byte indexing in Rust and character indexing agree).  Rust machine
integers are modelled as `Int`/`Nat` with explicit wrapping where the source
can overflow; Rust panics are modelled as `Option.none`.
-/

namespace YamahaRcp

/-- The double quote character, U+0022. -/
def quote_char : Char := Char.ofNat 34

/-- Error enumeration, lib.rs:58-72.  Payloads that are `std::io::Error` or
`Box<dyn Error>` in the source are modelled as their display strings. -/
inductive Error where
  | NetworkError (msg : String)
  | AddrParseError (msg : String)
  | RCPError (msg : String)
  | RCPParseError (msg : String)
  | LabelColorParseError (msg : String)
  | SceneListParseError (msg : String)
deriving DecidableEq, Repr

/-- True exactly on the `NetworkError` variant (connect/read/write failures). -/
def Error.is_network : Error → Bool
  | .NetworkError _ => true
  | _ => false

/-- True exactly on the `RCPError` variant, the kind produced when the console
replies `ERROR` (the spec's ProtocolError). -/
def Error.is_rcp : Error → Bool
  | .RCPError _ => true
  | _ => false

/-- Channel label colors, lib.rs:76-85. -/
inductive LabelColor where
  | Purple
  | Pink
  | Red
  | Orange
  | Yellow
  | Blue
  | SkyBlue
  | Green
deriving DecidableEq, Repr

/-- Rust `str::to_lowercase` restricted to ASCII, which is all the wire
protocol uses. -/
def char_to_lower_list (s : List Char) : List Char := s.map Char.toLower

/-- `FromStr for LabelColor`, lib.rs:109-123: lowercase the input and match it
against the eight color names; anything else is a `LabelColorParseError`.
The Rust `match` on string literals is written as the equivalent chain of
equality tests. -/
def LabelColor.from_str (s : List Char) : Except Error LabelColor :=
  let l := char_to_lower_list s
  if l = "purple".data then .ok .Purple
  else if l = "pink".data then .ok .Pink
  else if l = "red".data then .ok .Red
  else if l = "orange".data then .ok .Orange
  else if l = "yellow".data then .ok .Yellow
  else if l = "blue".data then .ok .Blue
  else if l = "skyblue".data then .ok .SkyBlue
  else if l = "green".data then .ok .Green
  else .error (.LabelColorParseError (String.mk ("unknown LabelColor descriptor: ".data ++ s)))

/-- Rust `str::split(' ')`: split on every space, keeping empty fragments;
an empty input yields one empty fragment.  Used by `request_bool`,
`request_int`, `request_string` and `color` (lib.rs:317, 326, 339, 401). -/
def split_char (sep : Char) : List Char → List (List Char)
  | [] => [[]]
  | c :: cs =>
    if c = sep then [] :: split_char sep cs
    else
      match split_char sep cs with
      | t :: ts => (c :: t) :: ts
      | [] => [[c]]

/-- `s.starts_with(pat)` for list-of-char text. -/
def starts_with : List Char → List Char → Bool
  | _, [] => true
  | [], _ :: _ => false
  | c :: cs, p :: ps => c = p && starts_with cs ps

/-- `fragment.starts_with('\x22')` (lib.rs:340, 345). -/
def starts_with_quote (s : List Char) : Bool :=
  match s with
  | c :: _ => c = quote_char
  | [] => false

/-- `fragment.ends_with('\x22')` (lib.rs:340, 351). -/
def ends_with_quote (s : List Char) : Bool :=
  match s.getLast? with
  | some c => c = quote_char
  | none => false

/-- Decimal digit accumulation used by integer parsing. -/
def digits_to_nat (ds : List Char) : Nat :=
  ds.foldl (fun acc c => acc * 10 + (c.toNat - 48)) 0

/-- Rust `str::parse::<i32>` (lib.rs:328): an optional sign followed by one or
more ASCII digits, rejected when empty, non-numeric, or out of i32 range. -/
def parse_i32 (s : List Char) : Option Int :=
  let signed : Int × List Char :=
    match s with
    | '+' :: rest => (1, rest)
    | '-' :: rest => (-1, rest)
    | l => (1, l)
  let sign := signed.1
  let ds := signed.2
  if ds = [] then none
  else if ds.all Char.isDigit then
    let v : Int := sign * digits_to_nat ds
    if -(2 ^ 31) ≤ v ∧ v < 2 ^ 31 then some v else none
  else none

/-- Classification of the value received from the reader queue,
lib.rs:290-303: `some` is a forwarded line, classified by its `ERROR`/`OK`
head; `none` is the closed-channel case, which the code maps to an
`RCPError`, not a `NetworkError`. -/
def recv_classify (r : Option (List Char)) : Except Error (List Char) :=
  match r with
  | some v =>
    if starts_with v "ERROR".data then .error (.RCPError (String.mk v))
    else if starts_with v "OK".data then .ok v
    else
      .error (.RCPError
        (String.mk ("received message did not start with ERROR or OK: ".data ++ v)))
  | none => .error (.RCPError "closed channel from reader task")

/-- One turn of the Reader Task's read loop, lib.rs:225-243: the result of
`reader.read` is matched; `Ok(_)` — including a zero-length read `Ok(0)` —
processes the buffer and loops again, only `Err(e)` makes the task return
(which is what drops the sender and closes the queue). -/
inductive ReadResult where
  | ok (n : Nat)
  | err (msg : String)
deriving DecidableEq, Repr

/-- Outcome of one reader-loop turn: keep looping, or the task returns. -/
inductive ReaderStep where
  | continue_loop
  | terminated (msg : String)
deriving DecidableEq, Repr

/-- The `match reader.read(..)` at lib.rs:225: `Ok(_)` loops, `Err` returns. -/
def reader_step : ReadResult → ReaderStep
  | .ok _ => .continue_loop
  | .err e => .terminated e

/-- Connection-pool state of a `TFMixer`: the idle `Vec<Connection>`
(`push` appends, `pop` removes the last element) and the `num_connections`
counter (a `u8` in the source; it never reaches 256 in any modelled run, so
plain `Nat` is exact).  Connections are identified by `Nat` ids. -/
structure PoolState where
  connections : List Nat
  num_connections : Nat
deriving DecidableEq, Repr

/-- `Mutex::new(8)` at lib.rs:190: the open-connection counter starts at 8,
not 0. -/
def initial_num_connections : Nat := 8

/-- Pool state produced by `TFMixer::new` (lib.rs:184-200): the initial
connection is pushed and the counter incremented once from its initial
value. -/
def new_pool (initial_conn : Nat) : PoolState :=
  { connections := [initial_conn]
    num_connections := initial_num_connections + 1 }

/-- Result of one acquire attempt in `send_command` (lib.rs:259-286). -/
inductive AcquireResult where
  | acquired (conn : Nat) (st : PoolState)
  | creation_failed (st : PoolState)
  | must_wait (st : PoolState)
deriving DecidableEq, Repr

/-- The acquire logic of `send_command`, lib.rs:259-286: pop the most
recently released idle connection if any; otherwise, when the counter is
below the limit, increment it and create a new connection — on creation
failure the `?` at lib.rs:268 propagates the error with the counter still
incremented (no decrement happens); otherwise enter the sleep-and-retry
wait loop (state unchanged at this decision point).  `create_ok` says
whether `new_connection()` would succeed and `new_id` names the connection
it would produce. -/
def acquire (limit : Nat) (create_ok : Bool) (new_id : Nat) (st : PoolState) : AcquireResult :=
  match st.connections.getLast? with
  | some c => .acquired c { st with connections := st.connections.dropLast }
  | none =>
    if st.num_connections < limit then
      if create_ok then
        .acquired new_id { st with num_connections := st.num_connections + 1 }
      else
        .creation_failed { st with num_connections := st.num_connections + 1 }
    else
      .must_wait st

/-- I/O behavior of the checked-out connection during one command. -/
inductive IoBehavior where
  | write_fails (msg : String)
  | reply (r : Option (List Char))

/-- The use-and-release phase of `send_command`, lib.rs:288-311, after a
connection `conn` was checked out: a failed `write_all` propagates through
`?` at lib.rs:288, so the connection is dropped without being pushed back
(and the counter is not decremented); otherwise the received value is
classified and the connection is pushed back into the pool unconditionally
(lib.rs:306-309), even when the receive observed a closed queue. -/
def send_command_io (conn : Nat) (beh : IoBehavior) (st : PoolState) :
    Except Error (List Char) × PoolState :=
  match beh with
  | .write_fails msg => (.error (.NetworkError msg), st)
  | .reply r => (recv_classify r, { st with connections := st.connections ++ [conn] })

/-- `request_bool` decoding, lib.rs:314-321: take the last space-separated
token of the response and return `token != "0"`. -/
def request_bool_decode (response : List Char) : Except Error Bool :=
  match (split_char ' ' response).getLast? with
  | some v => .ok (v != "0".data)
  | none => .error (.RCPError "Could not get last item in list")

/-- `set_muted` wire value, lib.rs:386-394: `if muted { 0 } else { 1 }`. -/
def set_muted_value (muted : Bool) : Int :=
  if muted then 0 else 1

/-- `set_muted(0, b)` followed by `muted(0)` against a mock console that
echoes the stored wire integer back as the last token of the `OK` reply. -/
def mute_roundtrip (b : Bool) : Except Error Bool :=
  request_bool_decode ("OK get MIXER:Current/InCh/Fader/On 0 0 ".data
    ++ (if set_muted_value b = 0 then "0".data else "1".data))

/-- `request_int` decoding, lib.rs:323-332: parse the last token as an `i32`;
a parse failure becomes an `RCPParseError` (the wrapped `ParseIntError`
display text is modelled by a fixed message around the offending token). -/
def request_int_decode (response : List Char) : Except Error Int :=
  match (split_char ' ' response).getLast? with
  | some v =>
    match parse_i32 v with
    | some n => .ok n
    | none => .error (.RCPParseError (String.mk ("invalid integer payload: ".data ++ v)))
  | none => .error (.RCPError "Couldn't find the last item")

/-- `v.replace('\x22', "")` at lib.rs:402: remove every double quote. -/
def remove_quotes (s : List Char) : List Char :=
  s.filter (fun c => c != quote_char)

/-- `color` decoding, lib.rs:396-405: strip quotes from the last token and
parse it as a `LabelColor`. -/
def color_decode (response : List Char) : Except Error LabelColor :=
  match (split_char ' ' response).getLast? with
  | some v => LabelColor.from_str (remove_quotes v)
  | none => .error (.RCPError "could not get last item in list")

/-- `fragment[1..fragment.len() - 1]` at lib.rs:341.  Rust byte slicing
panics when the token is shorter than two bytes (the slice `[1..0]` for the
lone-quote token), hence the `Option`. -/
def strip_both_quotes (s : List Char) : Option (List Char) :=
  if 2 ≤ s.length then some ((s.drop 1).dropLast) else none

/-- The token scan of `request_string`, lib.rs:337-359, collecting `resp_vec`.
Per fragment, in source order: (1) not looking and the fragment both starts
and ends with a quote — push it with both quotes stripped and break;
(2) starts with a quote and not looking — start looking and push it with the
leading quote stripped; (3) ends with a quote while looking — push it with
the trailing quote stripped and break; (4) looking — push it unchanged;
otherwise skip it.  `none` models the possible panic of case (1). -/
def scan_tokens : Bool → List (List Char) → Option (List (List Char))
  | _, [] => some []
  | looking, f :: rest =>
    if !looking && starts_with_quote f && ends_with_quote f then
      (strip_both_quotes f).map (fun s => [s])
    else if starts_with_quote f && !looking then
      (scan_tokens true rest).map (fun v => f.drop 1 :: v)
    else if ends_with_quote f && looking then
      some [f.dropLast]
    else if looking then
      (scan_tokens looking rest).map (fun v => f :: v)
    else
      scan_tokens looking rest

/-- `resp_vec.join(" ")` at lib.rs:360. -/
def join_spaces : List (List Char) → List Char
  | [] => []
  | [s] => s
  | s :: rest => s ++ ' ' :: join_spaces rest

/-- `request_string` decoding, lib.rs:334-363: split the response on spaces,
run the quoted-token scan, and join the collected fragments with single
spaces. -/
def request_string_decode (response : List Char) : Option (List Char) :=
  (scan_tokens false (split_char ' ' response)).map join_spaces

/-- `label`, lib.rs:417-420: `request_string` wraps whatever the scan
produced in `Ok` (lib.rs:362) — there is no error path after a successful
`send_command`. -/
def label_result (response : List Char) : Option (Except Error (List Char)) :=
  (request_string_decode response).map Except.ok

/-- Fader constants of `TFMixer::new`, lib.rs:185-187. -/
def max_fader_val : Int := 1000

/-- Minimum fader code, lib.rs:186. -/
def min_fader_val : Int := -13800

/-- Negative-infinity sentinel code, lib.rs:187. -/
def neg_inf_val : Int := -32768

/-- Rust `Ord::clamp` for the in-range constants used here. -/
def rust_clamp (v lo hi : Int) : Int :=
  if v < lo then lo else if hi < v then hi else v

/-- `num_steps as i32` at lib.rs:448: the `u64 -> i32` cast truncates to the
low 32 bits and reinterprets them as two's complement. -/
def i32_of_u64 (n : Nat) : Int :=
  let m : Nat := n % 2 ^ 32
  if m < 2 ^ 31 then (m : Int) else (m : Int) - 2 ^ 32

/-- Wrapping `i32` addition, the release-mode semantics of
`current_value += step_delta` at lib.rs:459. -/
def wrap_i32 (x : Int) : Int :=
  let m := x % (2 : Int) ^ 32
  if m < 2 ^ 31 then m else m - 2 ^ 32

/-- The intermediate fader values issued by the fade loop, lib.rs:453-460:
`n` ticks starting from `current`, each advancing by `delta`. -/
def fade_ramp : Nat → Int → Int → List Int
  | 0, _, _ => []
  | n + 1, current, delta => current :: fade_ramp n (wrap_i32 (current + delta)) delta

/-- The trace of `set_fader_level` values issued by `fade`, lib.rs:437-472,
assuming every `set_fader_level` call succeeds: clamp both endpoints,
compute `num_steps = duration_ms / 50` and
`step_delta = (final - initial) / (num_steps as i32)` — `none` when that
divisor is zero, because Rust integer division by zero panics (lib.rs:448) —
then the `num_steps` loop values followed by the one terminal value, with
the negative-infinity sentinel substituted when the clamped final value
equals the minimum fader code (lib.rs:462-468). -/
def fade_commands (initial_value final_value : Int) (duration_ms : Nat) : Option (List Int) :=
  let i := rust_clamp initial_value min_fader_val max_fader_val
  let f := rust_clamp final_value min_fader_val max_fader_val
  let num_steps : Nat := duration_ms / 50
  let divisor : Int := i32_of_u64 num_steps
  if divisor = 0 then
    none
  else
    let step_delta : Int := Int.tdiv (f - i) divisor
    let terminal : Int := if f = min_fader_val then neg_inf_val else f
    some (fade_ramp num_steps i step_delta ++ [terminal])

end YamahaRcp

namespace YamahaRcp

/-! ## Helper lemmas -/

/-- The fade loop issues exactly one command per step. -/
theorem fade_ramp_length : ∀ (n : Nat) (c d : Int), (fade_ramp n c d).length = n := by
  intro n
  induction n with
  | zero => intro c d; rfl
  | succ k ih => intro c d; simp [fade_ramp, ih]

/-- The `u64 -> i32` cast is the identity below `2 ^ 31`. -/
theorem i32_of_u64_small (n : Nat) (h : n < 2 ^ 31) : i32_of_u64 n = (n : Int) := by
  have h32 : n < 2 ^ 32 := lt_of_lt_of_le h (by norm_num)
  simp only [i32_of_u64, Nat.mod_eq_of_lt h32]
  rw [if_pos h]

/-- While not looking, tokens that do not start with a quote are skipped. -/
theorem scan_tokens_skip (pre ts : List (List Char))
    (h : ∀ u ∈ pre, starts_with_quote u = false) :
    scan_tokens false (pre ++ ts) = scan_tokens false ts := by
  induction pre with
  | nil => rfl
  | cons p ps ih =>
    have hp : starts_with_quote p = false := h p (List.mem_cons_self p ps)
    have ih2 := ih (fun u hu => h u (List.mem_cons_of_mem p hu))
    simp [scan_tokens, hp, ih2]

/-- While looking, tokens are accumulated until the first token that ends
with a quote, which is pushed with that quote stripped. -/
theorem scan_tokens_accum (mid : List (List Char))
    (h : ∀ u ∈ mid, ends_with_quote u = false)
    (lq : List Char) (hlq : ends_with_quote lq = true) (rest : List (List Char)) :
    scan_tokens true (mid ++ lq :: rest) = some (mid ++ [lq.dropLast]) := by
  induction mid with
  | nil => simp [scan_tokens, hlq]
  | cons m ms ih =>
    have hm : ends_with_quote m = false := h m (List.mem_cons_self m ms)
    have ih2 := ih (fun u hu => h u (List.mem_cons_of_mem m hu))
    simp [scan_tokens, hm, ih2]

/-! ## Claim theorems -/

/-- C1: the claim states that a Connection observing an I/O failure during a
command is dropped and never returned to the pool, so no later acquire hands
it out.  The code does drop the connection on a write failure, but when the
failure is the reply queue observing closed, `send_command` pushes the very
same connection back into the pool (lib.rs:306-309) and the next acquire
pops it again; the open count is never decremented either.  This theorem
evaluates the model at that failing input: after a closed-queue failure the
connection sits in the idle list and the following acquire returns it. -/
theorem C1_closed_queue_connection_rejoins_pool :
    send_command_io 0 (IoBehavior.reply none) { connections := [], num_connections := 9 }
      = (Except.error (Error.RCPError "closed channel from reader task"),
         { connections := [0], num_connections := 9 })
    ∧ acquire 1 true 99 { connections := [0], num_connections := 9 }
      = AcquireResult.acquired 0 { connections := [], num_connections := 9 } :=
  ⟨rfl, rfl⟩

/-- C2: the claim states that `fade` with `duration_ms < 50` computes
`steps = 0`, skips the loop with no division by zero, still issues the one
final command, and does not panic.  The code instead computes
`step_delta = (final - initial) / (num_steps as i32)` unconditionally at
lib.rs:448, and with `num_steps = 0` that is an integer division by zero,
which panics before any command is issued.  Evaluation at
`fade(ch, 1000, -4000, 30)`: the step count is 0 and the command trace is
`none` (panic), so no final command is issued. -/
theorem C2_fade_short_duration_divides_by_zero :
    (30 : Nat) / 50 = 0 ∧ fade_commands 1000 (-4000) 30 = none :=
  ⟨rfl, rfl⟩

/-- C3 counterexample: the claim predicts that every fade call issues
`duration_ms / 50` intermediate commands followed by one final command —
for `fade(ch, 1000, -4000, 10)` that would be a trace of `10 / 50 + 1 = 1`
command.  The code panics on the division by zero at lib.rs:448 instead and
issues nothing. -/
theorem C3_counterexample_fade_10ms :
    fade_commands 1000 (-4000) 10 = none
    ∧ Option.map List.length (fade_commands 1000 (-4000) 10) ≠ some (10 / 50 + 1) :=
  ⟨rfl, by decide⟩

/-- C3 (amended): for every fade call whose step count `duration_ms / 50`
lies in `[1, 2 ^ 31)`, exactly `duration_ms / 50` intermediate
`set_fader_level` commands are issued followed by exactly one final command
whose value is the clamped final value, with the sentinel `-32768`
substituted when the clamped final value equals `min_fader = -13800`; in
particular `fade(ch, 1000, -4000, 3000)` issues 60 intermediate commands
plus a final command with value `-4000`, and `fade(ch, 1000, -13800, 1000)`
issues 20 intermediate commands plus a final command with value `-32768`. -/
theorem C3_fade_command_counts :
    (∀ (initial final : Int) (d : Nat), 1 ≤ d / 50 → d / 50 < 2 ^ 31 →
        Option.map List.length (fade_commands initial final d) = some (d / 50 + 1)
        ∧ Option.bind (fade_commands initial final d) List.getLast?
            = some (if rust_clamp final min_fader_val max_fader_val = min_fader_val
                    then neg_inf_val
                    else rust_clamp final min_fader_val max_fader_val))
    ∧ Option.map List.length (fade_commands 1000 (-4000) 3000) = some 61
    ∧ Option.bind (fade_commands 1000 (-4000) 3000) List.getLast? = some (-4000)
    ∧ Option.map List.length (fade_commands 1000 (-13800) 1000) = some 21
    ∧ Option.bind (fade_commands 1000 (-13800) 1000) List.getLast? = some (-32768) := by
  refine ⟨?_, by decide, by decide, by decide, by decide⟩
  intro initial final d h1 h2
  have hne : i32_of_u64 (d / 50) ≠ 0 := by
    rw [i32_of_u64_small _ h2]
    exact_mod_cast Nat.one_le_iff_ne_zero.mp h1
  have heq : fade_commands initial final d
      = some (fade_ramp (d / 50) (rust_clamp initial min_fader_val max_fader_val)
            (Int.tdiv (rust_clamp final min_fader_val max_fader_val
                - rust_clamp initial min_fader_val max_fader_val) (i32_of_u64 (d / 50)))
          ++ [if rust_clamp final min_fader_val max_fader_val = min_fader_val
              then neg_inf_val
              else rust_clamp final min_fader_val max_fader_val]) := by
    simp only [fade_commands]
    rw [if_neg hne]
  rw [heq]
  constructor
  · simp [List.length_append, fade_ramp_length]
  · simp [List.getLast?_concat]

/-- C3 witness: the amended statement applied at
`fade(ch, 500, -9000, 500)`: 10 intermediate commands plus a final command
with the clamped final value. -/
theorem C3_fade_command_counts_witness :
    Option.map List.length (fade_commands 500 (-9000) 500) = some (500 / 50 + 1)
    ∧ Option.bind (fade_commands 500 (-9000) 500) List.getLast?
        = some (if rust_clamp (-9000) min_fader_val max_fader_val = min_fader_val
                then neg_inf_val
                else rust_clamp (-9000) min_fader_val max_fader_val) :=
  C3_fade_command_counts.1 500 (-9000) 500 (by decide) (by decide)

/-- C4: the claim states the open-connection count starts at zero and
faithfully reflects the number of open Connections.  The code initializes
the counter to 8 (`Mutex::new(8)` at lib.rs:190), so after `TFMixer::new`
the counter reads 9 while exactly one Connection is open. -/
theorem C4_open_count_initialized_to_eight :
    initial_num_connections = 8
    ∧ (new_pool 0).num_connections = 9
    ∧ (new_pool 0).connections.length = 1
    ∧ (new_pool 0).num_connections ≠ (new_pool 0).connections.length :=
  ⟨rfl, rfl, rfl, by decide⟩

/-- C5: the claim states that a zero-length read terminates the Reader Task
and that `send_command` translates a closed queue into a `NetworkError`.
The code's read loop matches `Ok(_)` — including `Ok(0)` — by processing the
buffer and looping again (lib.rs:225-241), so end-of-stream never terminates
the task; and when the queue is observed closed, `send_command` produces an
`RCPError` (lib.rs:302), not a `NetworkError`. -/
theorem C5_zero_read_loops_and_closed_queue_not_network :
    reader_step (ReadResult.ok 0) = ReaderStep.continue_loop
    ∧ recv_classify none = Except.error (Error.RCPError "closed channel from reader task")
    ∧ Error.is_network (Error.RCPError "closed channel from reader task") = false :=
  ⟨rfl, rfl, rfl⟩

/-- C6: the claim states that `set_muted(ch, b)` followed by `muted(ch)`
returns `b` against an echoing mock console.  The code's `set_muted` encodes
`muted = true` as wire value 0 (lib.rs:389) while `muted` decodes the echoed
last token as `token != "0"` (lib.rs:318), so the round trip returns the
negation of what was set, for both booleans. -/
theorem C6_mute_roundtrip_inverted :
    mute_roundtrip true = Except.ok false ∧ mute_roundtrip false = Except.ok true :=
  ⟨by rfl, by rfl⟩

/-- C8: the claim states that when connection creation fails during acquire,
the previously incremented open count is decremented back, leaving it
unchanged on error.  In the code the `?` at lib.rs:268 propagates the
creation error after the increment at lib.rs:267 with no decrement, so the
capacity slot is lost: from count 9 the failed acquire leaves count 10. -/
theorem C8_creation_failure_keeps_incremented_count :
    acquire 20 false 5 { connections := [], num_connections := 9 }
      = AcquireResult.creation_failed { connections := [], num_connections := 10 }
    ∧ (10 : Nat) ≠ 9 :=
  ⟨rfl, by decide⟩

end YamahaRcp

namespace YamahaRcp

/-- C7: the quoted-string reassembly used by `label`: a single token that
both starts and ends with a double quote (so it has at least the two quote
characters) decodes with both quotes stripped; otherwise, from the first
token starting with a double quote through the token ending with a double
quote, tokens are accumulated with the outer quotes stripped and joined with
single spaces; in particular the reply `OK path "CHAN 2"` decodes to
`CHAN 2` and the reply `OK path "solo"` decodes to `solo`. -/
theorem C7_label_reassembly :
    request_string_decode "OK path \"CHAN 2\"".data = some "CHAN 2".data
    ∧ request_string_decode "OK path \"solo\"".data = some "solo".data
    ∧ (∀ (pre rest : List (List Char)) (t : List Char),
        (∀ u ∈ pre, starts_with_quote u = false) →
        starts_with_quote t = true → ends_with_quote t = true → 2 ≤ t.length →
        scan_tokens false (pre ++ t :: rest) = some [(t.drop 1).dropLast])
    ∧ (∀ (pre mid rest : List (List Char)) (fq lq : List Char),
        (∀ u ∈ pre, starts_with_quote u = false) →
        starts_with_quote fq = true → ends_with_quote fq = false →
        (∀ u ∈ mid, ends_with_quote u = false) →
        ends_with_quote lq = true →
        scan_tokens false (pre ++ fq :: (mid ++ lq :: rest))
          = some (fq.drop 1 :: (mid ++ [lq.dropLast]))) := by
  refine ⟨by decide, by decide, ?_, ?_⟩
  · intro pre rest t hpre hs he hl
    rw [scan_tokens_skip pre (t :: rest) hpre]
    simp [scan_tokens, hs, he, strip_both_quotes, hl]
  · intro pre mid rest fq lq hpre hfs hfe hmid hlq
    rw [scan_tokens_skip pre (fq :: (mid ++ lq :: rest)) hpre]
    simp only [scan_tokens, hfs, hfe, Bool.not_false, Bool.and_true, Bool.true_and,
      Bool.and_false, Bool.false_and, if_false, if_true, Bool.not_true]
    rw [scan_tokens_accum mid hmid lq hlq rest]
    rfl

/-- C7 witness: the accumulate-and-join clause applied to the concrete
payload tokens `OK`, `path`, `"CHAN`, `2"`. -/
theorem C7_label_reassembly_witness :
    scan_tokens false (["OK".data, "path".data] ++ "\"CHAN".data :: ([] ++ "2\"".data :: []))
      = some ("\"CHAN".data.drop 1 :: ([] ++ ["2\"".data.dropLast])) :=
  C7_label_reassembly.2.2.2 ["OK".data, "path".data] [] [] "\"CHAN".data "2\"".data
    (by decide) (by decide) (by decide) (by decide) (by decide)

/-- C9: when an OK reply's payload cannot be decoded, the caller gets a
parse-error kind distinct from the `RCPError` kind used for a console
`ERROR` reply: a non-numeric last token in `fader_level`'s reply yields an
`RCPParseError`, and an unrecognized color string in `color`'s reply yields
a `LabelColorParseError`, and neither is the `RCPError` kind. -/
theorem C9_parse_error_kinds :
    (∀ (response v : List Char),
        (split_char ' ' response).getLast? = some v →
        parse_i32 v = none →
        request_int_decode response
          = Except.error (Error.RCPParseError (String.mk ("invalid integer payload: ".data ++ v)))
        ∧ Error.is_rcp (Error.RCPParseError
            (String.mk ("invalid integer payload: ".data ++ v))) = false)
    ∧ (∀ (response v : List Char),
        (split_char ' ' response).getLast? = some v →
        char_to_lower_list (remove_quotes v) ∉
          ["purple".data, "pink".data, "red".data, "orange".data,
           "yellow".data, "blue".data, "skyblue".data, "green".data] →
        color_decode response
          = Except.error (Error.LabelColorParseError
              (String.mk ("unknown LabelColor descriptor: ".data ++ remove_quotes v)))
        ∧ Error.is_rcp (Error.LabelColorParseError
            (String.mk ("unknown LabelColor descriptor: ".data ++ remove_quotes v))) = false) := by
  constructor
  · intro response v hlast hparse
    refine ⟨?_, rfl⟩
    simp only [request_int_decode, hlast, hparse]
  · intro response v hlast hmem
    simp only [List.mem_cons, List.mem_singleton, not_or] at hmem
    obtain ⟨h1, h2, h3, h4, h5, h6, h7, h8, -⟩ := hmem
    refine ⟨?_, rfl⟩
    simp only [color_decode, hlast]
    simp only [LabelColor.from_str, if_neg h1, if_neg h2, if_neg h3, if_neg h4,
      if_neg h5, if_neg h6, if_neg h7, if_neg h8]

/-- C9 witness: the two parse-failure clauses applied at concrete replies
whose last tokens are `abc` and `"Chartreuse"`. -/
theorem C9_parse_error_kinds_witness :
    (request_int_decode "OK path abc".data
        = Except.error (Error.RCPParseError
            (String.mk ("invalid integer payload: ".data ++ "abc".data)))
      ∧ Error.is_rcp (Error.RCPParseError
          (String.mk ("invalid integer payload: ".data ++ "abc".data))) = false)
    ∧ (color_decode "OK path \"Chartreuse\"".data
        = Except.error (Error.LabelColorParseError
            (String.mk ("unknown LabelColor descriptor: ".data
              ++ remove_quotes "\"Chartreuse\"".data)))
      ∧ Error.is_rcp (Error.LabelColorParseError
          (String.mk ("unknown LabelColor descriptor: ".data
            ++ remove_quotes "\"Chartreuse\"".data))) = false) :=
  ⟨C9_parse_error_kinds.1 "OK path abc".data "abc".data (by decide) (by decide),
   C9_parse_error_kinds.2 "OK path \"Chartreuse\"".data "\"Chartreuse\"".data
     (by decide) (by decide)⟩

/-- C10: when the OK reply received by `label` contains no double-quote
delimited token at all, `label` returns success with the empty string: the
scan accumulates nothing and the join of the empty list is empty. -/
theorem C10_label_empty_without_quotes (response : List Char)
    (h : ∀ t ∈ split_char ' ' response,
      starts_with_quote t = false ∧ ends_with_quote t = false) :
    label_result response = some (Except.ok []) := by
  have hs : scan_tokens false (split_char ' ' response) = some [] := by
    have hx := scan_tokens_skip (split_char ' ' response) [] (fun u hu => (h u hu).1)
    simpa using hx
  simp [label_result, request_string_decode, hs, join_spaces]

/-- C10 witness: the reply `OK path 0` has no quoted token, and `label`
returns success with the empty label. -/
theorem C10_label_empty_without_quotes_witness :
    label_result "OK path 0".data = some (Except.ok []) :=
  C10_label_empty_without_quotes "OK path 0".data (by decide)

end YamahaRcp
